import Mathlib

/-!
Verification of the rust-css typed value pipeline: a shallow embedding of
the repository's value types, color model, parsing functions, computed-style
adapter and cascade font-size callback, with theorems checking the
natural-language specification's claims against them.

Rust `float` values are modelled as `ℚ` (exact arithmetic); machine `u8`
channels as `Nat`; fallible code (`fail!`) as `Option`/`Except`.
-/

namespace RustCss

/-! ## values.rs: the `CSSValue` wrapper and property enumerations -/

/-- From values.rs: a partial CSS value, before inheritance has been
resolved: `Inherit | Specified(T)`. -/
inductive CSSValue (T : Type) where
  | Inherit : CSSValue T
  | Specified : T → CSSValue T
  deriving DecidableEq, Repr

export CSSValue (Inherit Specified)

/-- From complete.rs / inherit.rs: `strip` unwraps `Specified(v)` to `v` and
fails (`fail!("unexpected 'inherit' value in complete style")`, modelled as
`none`) on `Inherit`. -/
def strip {T : Type} (value : CSSValue T) : Option T :=
  match value with
  | Inherit => none
  | Specified v => some v

/-! ## color.rs: the Color value type and constructors -/

/-- From color.rs: `Color { red: u8, green: u8, blue: u8, alpha: float }`,
with `u8` channels as `Nat` and the `float` alpha as `ℚ`. -/
structure Color where
  red : Nat
  green : Nat
  blue : Nat
  alpha : ℚ
  deriving DecidableEq, Repr

/-- From color.rs: `rgba(r, g, b, a)`. -/
def rgba (r g b : Nat) (a : ℚ) : Color :=
  { red := r, green := g, blue := b, alpha := a }

/-- From color.rs: `rgb(r, g, b) = rgba(r, g, b, 1.0)`. -/
def rgb (r g b : Nat) : Color :=
  rgba r g b 1

/-! ## units.rs: lengths and font-size keyword enumerations -/

/-- From units.rs: `Length` is `Em(float) | Px(float)` (the snapshot cited
by the claims has exactly these two variants). -/
inductive Length where
  | Em : ℚ → Length
  | Px : ℚ → Length
  deriving DecidableEq, Repr

/-- From units.rs: `Length::rel` returns the number of an `Em` length and
fails (`fail!`, modelled as `none`) on anything else. -/
def Length.rel (self : Length) : Option ℚ :=
  match self with
  | .Em x => some x
  | _ => none

/-- From units.rs: `Length::abs` — the source body matches `Em(x) => x`
and fails on anything else (identical to `rel`, including its error
message), so it returns the number of an `Em` length and fails on `Px`. -/
def Length.abs (self : Length) : Option ℚ :=
  match self with
  | .Em x => some x
  | _ => none

/-- From units.rs: `AbsoluteSize`. -/
inductive AbsoluteSize where
  | XXSmall | XSmall | Small | Medium | Large | XLarge | XXLarge
  deriving DecidableEq, Repr

/-- From units.rs: `RelativeSize`. -/
inductive RelativeSize where
  | Larger | Smaller
  deriving DecidableEq, Repr

/-- From units.rs: `GenericFontFamily`. -/
inductive GenericFontFamily where
  | Serif | SansSerif | Cursive | Fantasy | Monospace
  deriving DecidableEq, Repr

/-! ## values.rs: per-property enumerations (the ones the resolved-style
accessor surface in complete.rs exposes) -/

/-- From values.rs: `CSSMargin`. -/
inductive CSSMargin where
  | CSSMarginLength : Length → CSSMargin
  | CSSMarginPercentage : ℚ → CSSMargin
  | CSSMarginAuto
  deriving DecidableEq, Repr

/-- From values.rs: `CSSPadding`. -/
inductive CSSPadding where
  | CSSPaddingLength : Length → CSSPadding
  | CSSPaddingPercentage : ℚ → CSSPadding
  deriving DecidableEq, Repr

/-- From values.rs: `CSSBorderWidth`. -/
inductive CSSBorderWidth where
  | CSSBorderWidthThin
  | CSSBorderWidthMedium
  | CSSBorderWidthThick
  | CSSBorderWidthLength : Length → CSSBorderWidth
  deriving DecidableEq, Repr

/-- From values.rs: `CSSBorderStyle`. -/
inductive CSSBorderStyle where
  | CSSBorderStyleNone | CSSBorderStyleHidden | CSSBorderStyleDotted
  | CSSBorderStyleDashed | CSSBorderStyleSolid | CSSBorderStyleDouble
  | CSSBorderStyleGroove | CSSBorderStyleRidge | CSSBorderStyleInset
  | CSSBorderStyleOutset
  deriving DecidableEq, Repr

/-- From values.rs: `CSSDisplay` (15 variants: the CSS 2.1 display
keywords other than `run-in`). -/
inductive CSSDisplay where
  | CSSDisplayInline | CSSDisplayBlock | CSSDisplayListItem
  | CSSDisplayInlineBlock | CSSDisplayTable | CSSDisplayInlineTable
  | CSSDisplayTableRowGroup | CSSDisplayTableHeaderGroup
  | CSSDisplayTableFooterGroup | CSSDisplayTableRow
  | CSSDisplayTableColumnGroup | CSSDisplayTableColumn
  | CSSDisplayTableCell | CSSDisplayTableCaption | CSSDisplayNone
  deriving DecidableEq, Repr

/-- From values.rs: `CSSPosition`. -/
inductive CSSPosition where
  | CSSPositionStatic | CSSPositionRelative | CSSPositionAbsolute
  | CSSPositionFixed
  deriving DecidableEq, Repr

/-- From values.rs: `CSSFloat`. -/
inductive CSSFloat where
  | CSSFloatLeft | CSSFloatRight | CSSFloatNone
  deriving DecidableEq, Repr

/-- Modelled from the spec: `CSSClear` is used by the complete.rs accessor
surface (`clear()`) and by test.rs (`CSSClearBoth`), but its definition is
not among the source files; CSS 2.1 `clear` takes none/left/right/both. -/
inductive CSSClear where
  | CSSClearNone | CSSClearLeft | CSSClearRight | CSSClearBoth
  deriving DecidableEq, Repr

/-- From values.rs: `CSSWidth`. -/
inductive CSSWidth where
  | CSSWidthLength : Length → CSSWidth
  | CSSWidthPercentage : ℚ → CSSWidth
  | CSSWidthAuto
  deriving DecidableEq, Repr

/-- From values.rs: `CSSHeight`. -/
inductive CSSHeight where
  | CSSHeightLength : Length → CSSHeight
  | CSSHeightPercentage : ℚ → CSSHeight
  | CSSHeightAuto
  deriving DecidableEq, Repr

/-- From values.rs: `CSSLineHeight`. -/
inductive CSSLineHeight where
  | CSSLineHeightNormal
  | CSSLineHeightNumber : ℚ → CSSLineHeight
  | CSSLineHeightLength : Length → CSSLineHeight
  | CSSLineHeightPercentage : ℚ → CSSLineHeight
  deriving DecidableEq, Repr

/-- From values.rs: `CSSVerticalAlign`. -/
inductive CSSVerticalAlign where
  | CSSVerticalAlignBaseline | CSSVerticalAlignSub | CSSVerticalAlignSuper
  | CSSVerticalAlignTop | CSSVerticalAlignTextTop | CSSVerticalAlignMiddle
  | CSSVerticalAlignBottom | CSSVerticalAlignTextBottom
  | CSSVerticalAlignPercentage : ℚ → CSSVerticalAlign
  | CSSVerticalAlignLength : Length → CSSVerticalAlign
  deriving DecidableEq, Repr

/-- From values.rs: `CSSFontFamily`. -/
inductive CSSFontFamily where
  | CSSFontFamilyFamilyName : String → CSSFontFamily
  | CSSFontFamilyGenericFamily : GenericFontFamily → CSSFontFamily
  deriving DecidableEq, Repr

/-- From values.rs: `CSSFontStyle`. -/
inductive CSSFontStyle where
  | CSSFontStyleNormal | CSSFontStyleItalic | CSSFontStyleOblique
  deriving DecidableEq, Repr

/-- From values.rs: `CSSFontWeight`. -/
inductive CSSFontWeight where
  | CSSFontWeightNormal | CSSFontWeightBold | CSSFontWeightBolder
  | CSSFontWeightLighter
  | CSSFontWeight100 | CSSFontWeight200 | CSSFontWeight300
  | CSSFontWeight400 | CSSFontWeight500 | CSSFontWeight600
  | CSSFontWeight700 | CSSFontWeight800 | CSSFontWeight900
  deriving DecidableEq, Repr

/-- From values.rs: `CSSFontSize`. -/
inductive CSSFontSize where
  | CSSFontSizeAbsoluteSize : AbsoluteSize → CSSFontSize
  | CSSFontSizeRelativeSize : RelativeSize → CSSFontSize
  | CSSFontSizeLength : Length → CSSFontSize
  | CSSFontSizePercentage : ℚ → CSSFontSize
  deriving DecidableEq, Repr

/-- From values.rs: `CSSTextAlign`. -/
inductive CSSTextAlign where
  | CSSTextAlignLeft | CSSTextAlignRight | CSSTextAlignCenter
  | CSSTextAlignJustify
  deriving DecidableEq, Repr

/-- From values.rs: `CSSTextDecoration`. -/
inductive CSSTextDecoration where
  | CSSTextDecorationNone | CSSTextDecorationUnderline
  | CSSTextDecorationOverline | CSSTextDecorationLineThrough
  | CSSTextDecorationBlink
  deriving DecidableEq, Repr

/-! ## computed.rs / complete.rs: the computed-style surface and the
resolved (complete) accessor surface

computed.rs exposes one method per property, each returning a
`CSSValue<T>`; we model that surface as a record of its results (the
`display` method takes a `root: bool` argument). complete.rs wraps it and
applies `strip` in every accessor. -/

/-- The per-property `CSSValue` surface that `ComputedStyle` (computed.rs)
offers and `CompleteStyle` (complete.rs) strips: one field per accessor of
`CompleteStyle`, typed as in the source. -/
structure ComputedStyle where
  margin_top : CSSValue CSSMargin
  margin_right : CSSValue CSSMargin
  margin_bottom : CSSValue CSSMargin
  margin_left : CSSValue CSSMargin
  padding_top : CSSValue CSSPadding
  padding_right : CSSValue CSSPadding
  padding_bottom : CSSValue CSSPadding
  padding_left : CSSValue CSSPadding
  border_top_style : CSSValue CSSBorderStyle
  border_right_style : CSSValue CSSBorderStyle
  border_bottom_style : CSSValue CSSBorderStyle
  border_left_style : CSSValue CSSBorderStyle
  border_top_width : CSSValue CSSBorderWidth
  border_right_width : CSSValue CSSBorderWidth
  border_bottom_width : CSSValue CSSBorderWidth
  border_left_width : CSSValue CSSBorderWidth
  border_top_color : CSSValue Color
  border_right_color : CSSValue Color
  border_bottom_color : CSSValue Color
  border_left_color : CSSValue Color
  display : Bool → CSSValue CSSDisplay
  position : CSSValue CSSPosition
  float : CSSValue CSSFloat
  clear : CSSValue CSSClear
  width : CSSValue CSSWidth
  height : CSSValue CSSHeight
  line_height : CSSValue CSSLineHeight
  vertical_align : CSSValue CSSVerticalAlign
  background_color : CSSValue Color
  color : CSSValue Color
  font_family : CSSValue (List CSSFontFamily)
  font_style : CSSValue CSSFontStyle
  font_weight : CSSValue CSSFontWeight
  font_size : CSSValue CSSFontSize
  text_decoration : CSSValue CSSTextDecoration
  text_align : CSSValue CSSTextAlign

/-- From complete.rs: `CompleteStyle` wraps a `ComputedStyle`. -/
structure CompleteStyle where
  inner : ComputedStyle

namespace CompleteStyle

/-- From complete.rs: `margin_top` is `strip(self.inner.margin_top())`;
the remaining accessors below each apply `strip` the same way. -/
def margin_top (self : CompleteStyle) : Option CSSMargin :=
  strip self.inner.margin_top

def margin_right (self : CompleteStyle) : Option CSSMargin :=
  strip self.inner.margin_right

def margin_bottom (self : CompleteStyle) : Option CSSMargin :=
  strip self.inner.margin_bottom

def margin_left (self : CompleteStyle) : Option CSSMargin :=
  strip self.inner.margin_left

def padding_top (self : CompleteStyle) : Option CSSPadding :=
  strip self.inner.padding_top

def padding_right (self : CompleteStyle) : Option CSSPadding :=
  strip self.inner.padding_right

def padding_bottom (self : CompleteStyle) : Option CSSPadding :=
  strip self.inner.padding_bottom

def padding_left (self : CompleteStyle) : Option CSSPadding :=
  strip self.inner.padding_left

def border_top_style (self : CompleteStyle) : Option CSSBorderStyle :=
  strip self.inner.border_top_style

def border_right_style (self : CompleteStyle) : Option CSSBorderStyle :=
  strip self.inner.border_right_style

def border_bottom_style (self : CompleteStyle) : Option CSSBorderStyle :=
  strip self.inner.border_bottom_style

def border_left_style (self : CompleteStyle) : Option CSSBorderStyle :=
  strip self.inner.border_left_style

def border_top_width (self : CompleteStyle) : Option CSSBorderWidth :=
  strip self.inner.border_top_width

def border_right_width (self : CompleteStyle) : Option CSSBorderWidth :=
  strip self.inner.border_right_width

def border_bottom_width (self : CompleteStyle) : Option CSSBorderWidth :=
  strip self.inner.border_bottom_width

def border_left_width (self : CompleteStyle) : Option CSSBorderWidth :=
  strip self.inner.border_left_width

def border_top_color (self : CompleteStyle) : Option Color :=
  strip self.inner.border_top_color

def border_right_color (self : CompleteStyle) : Option Color :=
  strip self.inner.border_right_color

def border_bottom_color (self : CompleteStyle) : Option Color :=
  strip self.inner.border_bottom_color

def border_left_color (self : CompleteStyle) : Option Color :=
  strip self.inner.border_left_color

def display (self : CompleteStyle) (root : Bool) : Option CSSDisplay :=
  strip (self.inner.display root)

def position (self : CompleteStyle) : Option CSSPosition :=
  strip self.inner.position

def float (self : CompleteStyle) : Option CSSFloat :=
  strip self.inner.float

def clear (self : CompleteStyle) : Option CSSClear :=
  strip self.inner.clear

def width (self : CompleteStyle) : Option CSSWidth :=
  strip self.inner.width

def height (self : CompleteStyle) : Option CSSHeight :=
  strip self.inner.height

def line_height (self : CompleteStyle) : Option CSSLineHeight :=
  strip self.inner.line_height

def vertical_align (self : CompleteStyle) : Option CSSVerticalAlign :=
  strip self.inner.vertical_align

def background_color (self : CompleteStyle) : Option Color :=
  strip self.inner.background_color

def color (self : CompleteStyle) : Option Color :=
  strip self.inner.color

def font_family (self : CompleteStyle) : Option (List CSSFontFamily) :=
  strip self.inner.font_family

def font_style (self : CompleteStyle) : Option CSSFontStyle :=
  strip self.inner.font_style

def font_weight (self : CompleteStyle) : Option CSSFontWeight :=
  strip self.inner.font_weight

def font_size (self : CompleteStyle) : Option CSSFontSize :=
  strip self.inner.font_size

def text_decoration (self : CompleteStyle) : Option CSSTextDecoration :=
  strip self.inner.text_decoration

def text_align (self : CompleteStyle) : Option CSSTextAlign :=
  strip self.inner.text_align

end CompleteStyle

/-! ## color.rs: HSL to RGB conversion -/

/-- Rust `f.round()` on a `c_double`: round half away from zero, to `ℤ`. -/
def roundFloat (q : ℚ) : ℤ :=
  if 0 ≤ q then ⌊q + 1/2⌋ else -⌊-q + 1/2⌋

/-- Rust `as u8` on an integral float value: wrap to the byte range (every
use in color.rs is already within `[0,255]`). -/
def toU8 (i : ℤ) : Nat := (i % 256).toNat

/-- From color.rs, `hue_to_rgb`: the initial wrap-around of the hue
(`if h < 0 { h + 1 } else if h > 1 { h - 1 } else { h }`). -/
def hueWrap (h : ℚ) : ℚ :=
  if h < 0 then h + 1 else if h > 1 then h - 1 else h

/-- From color.rs: the nested `hue_to_rgb` helper of `hsla`; its final
`fail!("unexpected hue value")` branch is modelled as `none`. -/
def hue_to_rgb (m1 m2 h0 : ℚ) : Option ℚ :=
  if 0 ≤ hueWrap h0 ∧ hueWrap h0 < 1/6 then
    some (m1 + (m2 - m1)*(hueWrap h0)*6)
  else if 1/6 ≤ hueWrap h0 ∧ hueWrap h0 < 1/2 then some m2
  else if 1/2 ≤ hueWrap h0 ∧ hueWrap h0 < 2/3 then
    some (m1 + (m2 - m1)*(4 - 6*(hueWrap h0)))
  else if 2/3 ≤ hueWrap h0 ∧ hueWrap h0 ≤ 1 then some m1
  else none

/-- From color.rs, `hsla`: `m2 = if l <= 0.5 { l*(s + 1) } else
{ l + s - l*s }`. -/
def hslM2 (s l : ℚ) : ℚ := if l ≤ 1/2 then l*(s + 1) else l + s - l*s

/-- From color.rs, `hsla`: `m1 = l*2 - m2`. -/
def hslM1 (s l : ℚ) : ℚ := l*2 - hslM2 s l

/-- From color.rs, `hsla`: the three channel evaluations at hue offsets
+1/3, 0, −1/3, each multiplied by 255, rounded and cast to `u8`; a hue
failure in any channel propagates. -/
def hslaChannels (m1 m2 h a : ℚ) : Option Color := do
  let r ← hue_to_rgb m1 m2 (h + 1/3)
  let g ← hue_to_rgb m1 m2 h
  let b ← hue_to_rgb m1 m2 (h - 1/3)
  some (rgba (toU8 (roundFloat (255*r))) (toU8 (roundFloat (255*g)))
             (toU8 (roundFloat (255*b))) a)

/-- From color.rs: `hsla`, the CSS3 HSL→RGB algorithm: `m2`, `m1`, the hue
normalised by 360, then the three rounded channel evaluations. -/
def hsla (h s l a : ℚ) : Option Color :=
  hslaChannels (hslM1 s l) (hslM2 s l) (h / 360) a

/-- From color.rs: `hsl(h,s,l) = hsla(h,s,l,1.0)`. -/
def hsl (h s l : ℚ) : Option Color := hsla h s l 1

/-! ## The netsurfcss collaborator interface used by computed.rs and
complete.rs: fixed-point values, units, hints, and display hint values.
These types live in the external `netsurfcss` binding crate (the `n`
module); they are modelled here from their use sites and from the spec's
description of the collaborator interface. -/

/-- Truncation of a rational toward zero (the semantics of Rust's
float-to-integer `as` cast on an in-range value). -/
def ratTrunc (q : ℚ) : ℤ := if 0 ≤ q then ⌊q⌋ else ⌈q⌉

/-- Modelled from the spec: netsurfcss `css_fixed_to_float` — `css_fixed`
is a fixed-point number scaled by 1024 (modelled as `ℤ`), converted to a
float by dividing by 1024. -/
def css_fixed_to_float (f : ℤ) : ℚ := (f : ℚ) / 1024

/-- Modelled from the spec: netsurfcss `float_to_css_fixed` — multiply by
1024 and cast to the fixed-point integer. -/
def float_to_css_fixed (f : ℚ) : ℤ := ratTrunc (f * 1024)

/-- Modelled from the spec: netsurfcss `CssUnit`, a unit tag carrying a
`css_fixed` value (the variants the adapter in computed.rs handles). -/
inductive CssUnit where
  | CssUnitPx : ℤ → CssUnit
  | CssUnitEm : ℤ → CssUnit
  | CssUnitPt : ℤ → CssUnit
  | CssUnitPct : ℤ → CssUnit
  deriving DecidableEq, Repr

/-- Modelled from the spec: netsurfcss `CssUnit::to_css_fixed` returns the
raw fixed-point value of any unit. -/
def CssUnit.to_css_fixed : CssUnit → ℤ
  | .CssUnitPx f => f
  | .CssUnitEm f => f
  | .CssUnitPt f => f
  | .CssUnitPct f => f

/-- Modelled from the spec: netsurfcss `CssUnit::modify` replaces the
fixed-point value, keeping the unit tag. -/
def CssUnit.modify : CssUnit → ℤ → CssUnit
  | .CssUnitPx _, v => .CssUnitPx v
  | .CssUnitEm _, v => .CssUnitEm v
  | .CssUnitPt _, v => .CssUnitPt v
  | .CssUnitPct _, v => .CssUnitPct v

/-- Modelled from the spec: netsurfcss `CssHint` — a per-property native
hint; `CssHintLength` carries a unit, and `CssHintDefault` stands for the
non-length hint variants (the font-size callback only distinguishes
length hints from the rest). -/
inductive CssHint where
  | CssHintLength : CssUnit → CssHint
  | CssHintDefault
  deriving DecidableEq, Repr

/-- From complete.rs: the body of `ComputeFontSizeCallback` in
`new_from_parent` — for a child `em` or `pct` length hint with a parent
length hint, multiply the parent's value by the child factor (`em` value,
or percentage divided by 100) and keep the parent's unit tag; with no
parent length hint, fall back to `16.0` px; any other child length unit
passes through; a non-length child hint falls back to `16.0` px. -/
def compute_font_size (parent : Option CssHint) (child : CssHint) : CssHint :=
  match child with
  | .CssHintLength (.CssUnitEm child_em) =>
    match parent with
    | some (.CssHintLength parent_unit) =>
      let new_value :=
        css_fixed_to_float parent_unit.to_css_fixed *
          css_fixed_to_float child_em
      .CssHintLength (parent_unit.modify (float_to_css_fixed new_value))
    | _ => .CssHintLength (.CssUnitPx (float_to_css_fixed 16))
  | .CssHintLength (.CssUnitPct child_pct) =>
    match parent with
    | some (.CssHintLength parent_unit) =>
      let new_value :=
        css_fixed_to_float parent_unit.to_css_fixed *
          (css_fixed_to_float child_pct / 100)
      .CssHintLength (parent_unit.modify (float_to_css_fixed new_value))
    | _ => .CssHintLength (.CssUnitPx (float_to_css_fixed 16))
  | .CssHintLength unit => .CssHintLength unit
  | _ => .CssHintLength (.CssUnitPx (float_to_css_fixed 16))

/-- Modelled from the spec: netsurfcss `CssDisplayValue`, the native
display hint (inherit sentinel, the CSS 2.1 display keywords, and
`run-in`). -/
inductive CssDisplayValue where
  | CssDisplayInherit | CssDisplayInline | CssDisplayBlock
  | CssDisplayListItem | CssDisplayRunIn | CssDisplayInlineBlock
  | CssDisplayTable | CssDisplayInlineTable | CssDisplayTableRowGroup
  | CssDisplayTableHeaderGroup | CssDisplayTableFooterGroup
  | CssDisplayTableRow | CssDisplayTableColumnGroup | CssDisplayTableColumn
  | CssDisplayTableCell | CssDisplayTableCaption | CssDisplayNone
  deriving DecidableEq, Repr

/-- From computed.rs: `unimpl(what)` fails with
`"css unimplemented <what>"`; modelled as an `Except.error`. -/
def unimpl {α : Type} (what : String) : Except String α :=
  .error ("css unimplemented " ++ what)

/-- From computed.rs: `convert_net_display_value` — the native inherit
sentinel becomes `Inherit`, each supported display keyword becomes
`Specified` of the matching `CSSDisplay` variant, and `run-in` fails fast
through `unimpl` (it is not in CSS 2.1). -/
def convert_net_display_value (value : CssDisplayValue) :
    Except String (CSSValue CSSDisplay) :=
  match value with
  | .CssDisplayInherit => .ok Inherit
  | .CssDisplayInline => .ok (Specified .CSSDisplayInline)
  | .CssDisplayBlock => .ok (Specified .CSSDisplayBlock)
  | .CssDisplayListItem => .ok (Specified .CSSDisplayListItem)
  | .CssDisplayRunIn => unimpl "display: run-in"
  | .CssDisplayInlineBlock => .ok (Specified .CSSDisplayInlineBlock)
  | .CssDisplayTable => .ok (Specified .CSSDisplayTable)
  | .CssDisplayInlineTable => .ok (Specified .CSSDisplayInlineTable)
  | .CssDisplayTableRowGroup => .ok (Specified .CSSDisplayTableRowGroup)
  | .CssDisplayTableHeaderGroup => .ok (Specified .CSSDisplayTableHeaderGroup)
  | .CssDisplayTableFooterGroup => .ok (Specified .CSSDisplayTableFooterGroup)
  | .CssDisplayTableRow => .ok (Specified .CSSDisplayTableRow)
  | .CssDisplayTableColumnGroup => .ok (Specified .CSSDisplayTableColumnGroup)
  | .CssDisplayTableColumn => .ok (Specified .CSSDisplayTableColumn)
  | .CssDisplayTableCell => .ok (Specified .CSSDisplayTableCell)
  | .CssDisplayTableCaption => .ok (Specified .CSSDisplayTableCaption)
  | .CssDisplayNone => .ok (Specified .CSSDisplayNone)

/-! ## color.rs: the named-color table (`css_colors`) -/

namespace css_colors

/-- From color.rs, `css_colors`: the keyword colors that `parse_by_name`
can return (plus `aliceblue`, one of the remaining CSS3 keyword colors the
table defines but `parse_by_name` never consults). -/
def black : Color := { red := 0, green := 0, blue := 0, alpha := 1 }

def silver : Color := { red := 192, green := 192, blue := 192, alpha := 1 }

def gray : Color := { red := 128, green := 128, blue := 128, alpha := 1 }

def white : Color := { red := 255, green := 255, blue := 255, alpha := 1 }

def maroon : Color := { red := 128, green := 0, blue := 0, alpha := 1 }

def red : Color := { red := 255, green := 0, blue := 0, alpha := 1 }

def purple : Color := { red := 128, green := 0, blue := 128, alpha := 1 }

def fuchsia : Color := { red := 255, green := 0, blue := 255, alpha := 1 }

def green : Color := { red := 0, green := 128, blue := 0, alpha := 1 }

def lime : Color := { red := 0, green := 255, blue := 0, alpha := 1 }

def olive : Color := { red := 128, green := 128, blue := 0, alpha := 1 }

def yellow : Color := { red := 255, green := 255, blue := 0, alpha := 1 }

def navy : Color := { red := 0, green := 0, blue := 128, alpha := 1 }

def blue : Color := { red := 0, green := 0, blue := 255, alpha := 1 }

def teal : Color := { red := 0, green := 128, blue := 128, alpha := 1 }

def aqua : Color := { red := 0, green := 255, blue := 255, alpha := 1 }

end css_colors

/-! ## color.rs: textual color parsing (`parsing` module)

Rust `&str` values are modelled at the character level (`List Char`);
`String` inputs are converted through `String.toList`. A `fail!` that can
be reached from `parse_color` (an out-of-range slice, or an invalid hue
inside the `hsl`/`hsla` constructors) is an `Except.error`. -/

/-- A runtime failure (`fail!`) reachable from `parse_color`. -/
inductive RtFail where
  | sliceOutOfBounds
  | invalidHue
  deriving DecidableEq, Repr

deriving instance DecidableEq for Except

/-- The UTF-8 byte length of a character list — Rust's `str::len()` counts
bytes, not characters. -/
def byteLen : List Char → Nat
  | [] => 0
  | c :: t => c.utf8Size + byteLen t

/-- Skip the first `n` UTF-8 bytes of a character list; `none` when `n`
lands inside a multi-byte character (not a char boundary) or past the
end. -/
def dropBytes (xs : List Char) (n : Nat) : Option (List Char) :=
  if n = 0 then some xs
  else
    match xs with
    | [] => none
    | c :: t => if c.utf8Size ≤ n then dropBytes t (n - c.utf8Size) else none

/-- Take the first `n` UTF-8 bytes of a character list; `none` when `n`
lands inside a multi-byte character (not a char boundary) or past the
end. -/
def takeBytes (xs : List Char) (n : Nat) : Option (List Char) :=
  if n = 0 then some []
  else
    match xs with
    | [] => none
    | c :: t =>
      if c.utf8Size ≤ n then (takeBytes t (n - c.utf8Size)).map (c :: ·)
      else none

/-- Rust `StrSlice::slice(begin, end)`: the substring between the two BYTE
indices; the source asserts that both indices are char boundaries and that
`begin <= end && end <= len`, so an index inside a multi-byte character,
an inverted range, or an index past the end all fault. -/
def sliceBytes (xs : List Char) (b e : Nat) : Except RtFail (List Char) :=
  if b ≤ e ∧ e ≤ byteLen xs then
    match dropBytes xs b with
    | some t =>
      match takeBytes t (e - b) with
      | some r => .ok r
      | none => .error .sliceOutOfBounds
    | none => .error .sliceOutOfBounds
  else .error .sliceOutOfBounds

/-- Rust `split_iter(sep)` collected into a vector: split on a separator
character, keeping empty fragments (splitting the empty string yields one
empty fragment). -/
def splitOnChar (sep : Char) : List Char → List (List Char)
  | [] => [[]]
  | c :: rest =>
    if c = sep then [] :: splitOnChar sep rest
    else
      match splitOnChar sep rest with
      | [] => [[c]]
      | t :: ts => (c :: t) :: ts

/-- The numeric value of a list of decimal digit characters. -/
def digitsVal (xs : List Char) : Nat :=
  xs.foldl (fun acc c => acc * 10 + (c.toNat - 48)) 0

/-- Modelled from Rust `std`: `FromStr::from_str` for `u8` — decimal
digits only (no sign, no whitespace, leading zeros allowed); empty input,
any non-digit character, or overflow past 255 yields `None`. -/
def from_str_u8 (xs : List Char) : Option Nat :=
  if xs ≠ [] ∧ xs.all Char.isDigit then
    if digitsVal xs ≤ 255 then some (digitsVal xs) else none
  else none

/-- Modelled from Rust `std`: `FromStr::from_str` for `float` — an
optional minus sign, then decimal digits with an optional fractional part
(`1`, `1.`, `.5`, `1.00` are all accepted, whitespace is not); at least
one digit must be present. The exponent and `inf`/`NaN` forms, which no
caller in this crate exercises, are omitted; the value is exact (`ℚ`). -/
def from_str_float (xs : List Char) : Option ℚ :=
  let (neg, ys) :=
    match xs with
    | '-' :: t => (true, t)
    | _ => (false, xs)
  let intPart := ys.takeWhile Char.isDigit
  let rest := ys.dropWhile Char.isDigit
  let build : List Char → Option ℚ := fun fracPart =>
    if fracPart.all Char.isDigit ∧ (intPart ≠ [] ∨ fracPart ≠ []) then
      let v : ℚ :=
        (digitsVal intPart : ℚ) +
          (digitsVal fracPart : ℚ) / ((10 : ℚ) ^ fracPart.length)
      some (if neg then -v else v)
    else none
  match rest with
  | [] => if intPart ≠ [] then build [] else none
  | '.' :: fracPart => build fracPart
  | _ => none

/-- From color.rs, `parsing`: the ASCII lowering of
`to_ascii().to_lower()`, one character at a time. -/
def asciiLower (c : Char) : Char :=
  if 'A' ≤ c ∧ c ≤ 'Z' then Char.ofNat (c.toNat + 32) else c

/-- From color.rs, `parse_by_name`: the keyword match performed on the
lowercased input — the 17 recognised keyword spellings (16 basic colors
plus the `grey` alias of `gray`); anything else is unrecognised
(logged and `None`). -/
def keywordMatch (l : List Char) : Option Color :=
  if l = "black".toList then some css_colors.black
  else if l = "silver".toList then some css_colors.silver
  else if l = "gray".toList then some css_colors.gray
  else if l = "grey".toList then some css_colors.gray
  else if l = "white".toList then some css_colors.white
  else if l = "maroon".toList then some css_colors.maroon
  else if l = "red".toList then some css_colors.red
  else if l = "purple".toList then some css_colors.purple
  else if l = "fuchsia".toList then some css_colors.fuchsia
  else if l = "green".toList then some css_colors.green
  else if l = "lime".toList then some css_colors.lime
  else if l = "olive".toList then some css_colors.olive
  else if l = "yellow".toList then some css_colors.yellow
  else if l = "navy".toList then some css_colors.navy
  else if l = "blue".toList then some css_colors.blue
  else if l = "teal".toList then some css_colors.teal
  else if l = "aqua".toList then some css_colors.aqua
  else none

/-- From color.rs, `parsing`: `parse_by_name` — ASCII-lowercase the input
(`to_ascii().to_lower().to_str_ascii()`) and match the keyword table. -/
def parse_by_name (color : List Char) : Option Color :=
  keywordMatch (color.map asciiLower)

/-- From color.rs, `parsing`: `parse_rgb` — shave off `rgb(` and `)` via
`slice(4, len-1)` (byte indices), split on commas, require exactly three
fragments, parse each as a `u8`, and build `rgb(r,g,b)`; a parse failure
or arity mismatch is unrecognised (`None`). -/
def parse_rgb (color : List Char) : Except RtFail (Option Color) := do
  let only_colors ← sliceBytes color 4 (byteLen color - 1)
  match splitOnChar ',' only_colors with
  | [c1, c2, c3] =>
    match from_str_u8 c1, from_str_u8 c2, from_str_u8 c3 with
    | some r, some g, some b => .ok (some (rgb r g b))
    | _, _, _ => .ok none
  | _ => .ok none

/-- From color.rs, `parsing`: `parse_rgba` — as `parse_rgb` with the
`rgba(` prefix (`slice(5, len-1)`), four fragments, and a float alpha. -/
def parse_rgba (color : List Char) : Except RtFail (Option Color) := do
  let only_vals ← sliceBytes color 5 (byteLen color - 1)
  match splitOnChar ',' only_vals with
  | [c1, c2, c3, c4] =>
    match from_str_u8 c1, from_str_u8 c2, from_str_u8 c3,
        from_str_float c4 with
    | some r, some g, some b, some a => .ok (some (rgba r g b a))
    | _, _, _, _ => .ok none
  | _ => .ok none

/-- From color.rs, `parsing`: `parse_hsl` — `slice(4, len-1)`, three float
fragments, dispatched to the `hsl` constructor (whose out-of-range hue
failure propagates as a fault). -/
def parse_hsl (color : List Char) : Except RtFail (Option Color) := do
  let only_vals ← sliceBytes color 4 (byteLen color - 1)
  match splitOnChar ',' only_vals with
  | [v1, v2, v3] =>
    match from_str_float v1, from_str_float v2, from_str_float v3 with
    | some h, some s, some l =>
      match hsl h s l with
      | some col => .ok (some col)
      | none => .error .invalidHue
    | _, _, _ => .ok none
  | _ => .ok none

/-- From color.rs, `parsing`: `parse_hsla` — `slice(5, len-1)`, four float
fragments, dispatched to the `hsla` constructor. -/
def parse_hsla (color : List Char) : Except RtFail (Option Color) := do
  let only_vals ← sliceBytes color 5 (byteLen color - 1)
  match splitOnChar ',' only_vals with
  | [v1, v2, v3, v4] =>
    match from_str_float v1, from_str_float v2, from_str_float v3,
        from_str_float v4 with
    | some h, some s, some l, some a =>
      match hsla h s l a with
      | some col => .ok (some col)
      | none => .error .invalidHue
    | _, _, _, _ => .ok none
  | _ => .ok none

/-- From color.rs, `parsing`: `parse_color` — dispatch on the `rgb(`,
`rgba(`, `hsl(`, `hsla(` prefixes in that order, falling back to the
keyword table. -/
def parse_color (color : String) : Except RtFail (Option Color) :=
  if "rgb(".toList.isPrefixOf color.toList then parse_rgb color.toList
  else if "rgba(".toList.isPrefixOf color.toList then parse_rgba color.toList
  else if "hsl(".toList.isPrefixOf color.toList then parse_hsl color.toList
  else if "hsla(".toList.isPrefixOf color.toList then parse_hsla color.toList
  else .ok (parse_by_name color.toList)

/-! ## Theorems -/


theorem strip_eq_some {T : Type} {w : CSSValue T} {v : T} :
    strip w = some v ↔ w = Specified v := by
  cases w <;> simp [strip]

theorem strip_eq_none {T : Type} {w : CSSValue T} :
    strip w = none ↔ w = Inherit := by
  cases w <;> simp [strip]

/-- C1: every property accessor on a resolved (complete) style returns `v`
exactly when the underlying computed value is `Specified v`, and fails fast
(returns the failure marker) exactly when it is `Inherit`: a caller never
observes the `Inherit` marker as a value through the resolved surface. -/
theorem resolved_accessors_strip_spec (cs : ComputedStyle) :
    (∀ v, (CompleteStyle.mk cs).margin_top = some v ↔ cs.margin_top = Specified v) ∧
    ((CompleteStyle.mk cs).margin_top = none ↔ cs.margin_top = Inherit) ∧
    (∀ v, (CompleteStyle.mk cs).margin_right = some v ↔ cs.margin_right = Specified v) ∧
    ((CompleteStyle.mk cs).margin_right = none ↔ cs.margin_right = Inherit) ∧
    (∀ v, (CompleteStyle.mk cs).margin_bottom = some v ↔ cs.margin_bottom = Specified v) ∧
    ((CompleteStyle.mk cs).margin_bottom = none ↔ cs.margin_bottom = Inherit) ∧
    (∀ v, (CompleteStyle.mk cs).margin_left = some v ↔ cs.margin_left = Specified v) ∧
    ((CompleteStyle.mk cs).margin_left = none ↔ cs.margin_left = Inherit) ∧
    (∀ v, (CompleteStyle.mk cs).padding_top = some v ↔ cs.padding_top = Specified v) ∧
    ((CompleteStyle.mk cs).padding_top = none ↔ cs.padding_top = Inherit) ∧
    (∀ v, (CompleteStyle.mk cs).padding_right = some v ↔ cs.padding_right = Specified v) ∧
    ((CompleteStyle.mk cs).padding_right = none ↔ cs.padding_right = Inherit) ∧
    (∀ v, (CompleteStyle.mk cs).padding_bottom = some v ↔ cs.padding_bottom = Specified v) ∧
    ((CompleteStyle.mk cs).padding_bottom = none ↔ cs.padding_bottom = Inherit) ∧
    (∀ v, (CompleteStyle.mk cs).padding_left = some v ↔ cs.padding_left = Specified v) ∧
    ((CompleteStyle.mk cs).padding_left = none ↔ cs.padding_left = Inherit) ∧
    (∀ v, (CompleteStyle.mk cs).border_top_style = some v ↔ cs.border_top_style = Specified v) ∧
    ((CompleteStyle.mk cs).border_top_style = none ↔ cs.border_top_style = Inherit) ∧
    (∀ v, (CompleteStyle.mk cs).border_right_style = some v ↔ cs.border_right_style = Specified v) ∧
    ((CompleteStyle.mk cs).border_right_style = none ↔ cs.border_right_style = Inherit) ∧
    (∀ v, (CompleteStyle.mk cs).border_bottom_style = some v ↔ cs.border_bottom_style = Specified v) ∧
    ((CompleteStyle.mk cs).border_bottom_style = none ↔ cs.border_bottom_style = Inherit) ∧
    (∀ v, (CompleteStyle.mk cs).border_left_style = some v ↔ cs.border_left_style = Specified v) ∧
    ((CompleteStyle.mk cs).border_left_style = none ↔ cs.border_left_style = Inherit) ∧
    (∀ v, (CompleteStyle.mk cs).border_top_width = some v ↔ cs.border_top_width = Specified v) ∧
    ((CompleteStyle.mk cs).border_top_width = none ↔ cs.border_top_width = Inherit) ∧
    (∀ v, (CompleteStyle.mk cs).border_right_width = some v ↔ cs.border_right_width = Specified v) ∧
    ((CompleteStyle.mk cs).border_right_width = none ↔ cs.border_right_width = Inherit) ∧
    (∀ v, (CompleteStyle.mk cs).border_bottom_width = some v ↔ cs.border_bottom_width = Specified v) ∧
    ((CompleteStyle.mk cs).border_bottom_width = none ↔ cs.border_bottom_width = Inherit) ∧
    (∀ v, (CompleteStyle.mk cs).border_left_width = some v ↔ cs.border_left_width = Specified v) ∧
    ((CompleteStyle.mk cs).border_left_width = none ↔ cs.border_left_width = Inherit) ∧
    (∀ v, (CompleteStyle.mk cs).border_top_color = some v ↔ cs.border_top_color = Specified v) ∧
    ((CompleteStyle.mk cs).border_top_color = none ↔ cs.border_top_color = Inherit) ∧
    (∀ v, (CompleteStyle.mk cs).border_right_color = some v ↔ cs.border_right_color = Specified v) ∧
    ((CompleteStyle.mk cs).border_right_color = none ↔ cs.border_right_color = Inherit) ∧
    (∀ v, (CompleteStyle.mk cs).border_bottom_color = some v ↔ cs.border_bottom_color = Specified v) ∧
    ((CompleteStyle.mk cs).border_bottom_color = none ↔ cs.border_bottom_color = Inherit) ∧
    (∀ v, (CompleteStyle.mk cs).border_left_color = some v ↔ cs.border_left_color = Specified v) ∧
    ((CompleteStyle.mk cs).border_left_color = none ↔ cs.border_left_color = Inherit) ∧
    (∀ root v, (CompleteStyle.mk cs).display root = some v ↔ cs.display root = Specified v) ∧
    (∀ root, (CompleteStyle.mk cs).display root = none ↔ cs.display root = Inherit) ∧
    (∀ v, (CompleteStyle.mk cs).position = some v ↔ cs.position = Specified v) ∧
    ((CompleteStyle.mk cs).position = none ↔ cs.position = Inherit) ∧
    (∀ v, (CompleteStyle.mk cs).float = some v ↔ cs.float = Specified v) ∧
    ((CompleteStyle.mk cs).float = none ↔ cs.float = Inherit) ∧
    (∀ v, (CompleteStyle.mk cs).clear = some v ↔ cs.clear = Specified v) ∧
    ((CompleteStyle.mk cs).clear = none ↔ cs.clear = Inherit) ∧
    (∀ v, (CompleteStyle.mk cs).width = some v ↔ cs.width = Specified v) ∧
    ((CompleteStyle.mk cs).width = none ↔ cs.width = Inherit) ∧
    (∀ v, (CompleteStyle.mk cs).height = some v ↔ cs.height = Specified v) ∧
    ((CompleteStyle.mk cs).height = none ↔ cs.height = Inherit) ∧
    (∀ v, (CompleteStyle.mk cs).line_height = some v ↔ cs.line_height = Specified v) ∧
    ((CompleteStyle.mk cs).line_height = none ↔ cs.line_height = Inherit) ∧
    (∀ v, (CompleteStyle.mk cs).vertical_align = some v ↔ cs.vertical_align = Specified v) ∧
    ((CompleteStyle.mk cs).vertical_align = none ↔ cs.vertical_align = Inherit) ∧
    (∀ v, (CompleteStyle.mk cs).background_color = some v ↔ cs.background_color = Specified v) ∧
    ((CompleteStyle.mk cs).background_color = none ↔ cs.background_color = Inherit) ∧
    (∀ v, (CompleteStyle.mk cs).color = some v ↔ cs.color = Specified v) ∧
    ((CompleteStyle.mk cs).color = none ↔ cs.color = Inherit) ∧
    (∀ v, (CompleteStyle.mk cs).font_family = some v ↔ cs.font_family = Specified v) ∧
    ((CompleteStyle.mk cs).font_family = none ↔ cs.font_family = Inherit) ∧
    (∀ v, (CompleteStyle.mk cs).font_style = some v ↔ cs.font_style = Specified v) ∧
    ((CompleteStyle.mk cs).font_style = none ↔ cs.font_style = Inherit) ∧
    (∀ v, (CompleteStyle.mk cs).font_weight = some v ↔ cs.font_weight = Specified v) ∧
    ((CompleteStyle.mk cs).font_weight = none ↔ cs.font_weight = Inherit) ∧
    (∀ v, (CompleteStyle.mk cs).font_size = some v ↔ cs.font_size = Specified v) ∧
    ((CompleteStyle.mk cs).font_size = none ↔ cs.font_size = Inherit) ∧
    (∀ v, (CompleteStyle.mk cs).text_decoration = some v ↔ cs.text_decoration = Specified v) ∧
    ((CompleteStyle.mk cs).text_decoration = none ↔ cs.text_decoration = Inherit) ∧
    (∀ v, (CompleteStyle.mk cs).text_align = some v ↔ cs.text_align = Specified v) ∧
    ((CompleteStyle.mk cs).text_align = none ↔ cs.text_align = Inherit) :=
  ⟨fun _ => strip_eq_some, strip_eq_none, fun _ => strip_eq_some, strip_eq_none, fun _ => strip_eq_some, strip_eq_none, fun _ => strip_eq_some, strip_eq_none, fun _ => strip_eq_some, strip_eq_none, fun _ => strip_eq_some, strip_eq_none, fun _ => strip_eq_some, strip_eq_none, fun _ => strip_eq_some, strip_eq_none, fun _ => strip_eq_some, strip_eq_none, fun _ => strip_eq_some, strip_eq_none, fun _ => strip_eq_some, strip_eq_none, fun _ => strip_eq_some, strip_eq_none, fun _ => strip_eq_some, strip_eq_none, fun _ => strip_eq_some, strip_eq_none, fun _ => strip_eq_some, strip_eq_none, fun _ => strip_eq_some, strip_eq_none, fun _ => strip_eq_some, strip_eq_none, fun _ => strip_eq_some, strip_eq_none, fun _ => strip_eq_some, strip_eq_none, fun _ => strip_eq_some, strip_eq_none, fun _ _ => strip_eq_some, fun _ => strip_eq_none, fun _ => strip_eq_some, strip_eq_none, fun _ => strip_eq_some, strip_eq_none, fun _ => strip_eq_some, strip_eq_none, fun _ => strip_eq_some, strip_eq_none, fun _ => strip_eq_some, strip_eq_none, fun _ => strip_eq_some, strip_eq_none, fun _ => strip_eq_some, strip_eq_none, fun _ => strip_eq_some, strip_eq_none, fun _ => strip_eq_some, strip_eq_none, fun _ => strip_eq_some, strip_eq_none, fun _ => strip_eq_some, strip_eq_none, fun _ => strip_eq_some, strip_eq_none, fun _ => strip_eq_some, strip_eq_none, fun _ => strip_eq_some, strip_eq_none, fun _ => strip_eq_some, strip_eq_none⟩

theorem hueWrap_mem {h : ℚ} (h1 : -1 ≤ h) (h2 : h ≤ 2) :
    0 ≤ hueWrap h ∧ hueWrap h ≤ 1 := by
  unfold hueWrap
  split_ifs <;> constructor <;> linarith

theorem hue_to_rgb_const (m h : ℚ) (h1 : -1 ≤ h) (h2 : h ≤ 2) :
    hue_to_rgb m m h = some m := by
  obtain ⟨hl, hr⟩ := hueWrap_mem h1 h2
  unfold hue_to_rgb
  split_ifs with c1 c2 c3 c4
  · exact congrArg some (by ring)
  · rfl
  · exact congrArg some (by ring)
  · rfl
  · simp only [not_and, not_lt, not_le] at c1 c2 c3 c4
    have a1 := c1 hl
    have a2 := c2 a1
    have a3 := c3 a2
    have a4 := c4 a3
    exact absurd hr (by linarith)

theorem hslaChannels_const (m h a : ℚ) (h1 : 0 ≤ h) (h2 : h ≤ 1) :
    hslaChannels m m h a =
      some (rgba (toU8 (roundFloat (255*m))) (toU8 (roundFloat (255*m)))
                 (toU8 (roundFloat (255*m))) a) := by
  unfold hslaChannels
  rw [hue_to_rgb_const m (h + 1/3) (by linarith) (by linarith),
      hue_to_rgb_const m h (by linarith) (by linarith),
      hue_to_rgb_const m (h - 1/3) (by linarith) (by linarith)]
  rfl

/-- C4: `hsl(0,1,0.5)=rgb(255,0,0)`, `hsl(120,1,0.5)=rgb(0,255,0)`,
`hsl(240,1,0.5)=rgb(0,0,255)`; for every hue in `[0,360]` and saturation in
`[0,1]`, lightness 0 gives black, and for every hue in `[0,360]`,
saturation 0 with lightness 1 gives white. -/
theorem hsl_conversion_spec :
    hsl 0 1 (1/2) = some (rgb 255 0 0) ∧
    hsl 120 1 (1/2) = some (rgb 0 255 0) ∧
    hsl 240 1 (1/2) = some (rgb 0 0 255) ∧
    (∀ h s : ℚ, 0 ≤ h → h ≤ 360 → 0 ≤ s → s ≤ 1 →
      hsl h s 0 = some (rgb 0 0 0)) ∧
    (∀ h : ℚ, 0 ≤ h → h ≤ 360 → hsl h 0 1 = some (rgb 255 255 255)) := by
  refine ⟨?_, ?_, ?_, ?_, ?_⟩
  · norm_num [hsl, hsla, hslM1, hslM2, hslaChannels, hue_to_rgb, hueWrap,
      roundFloat, toU8, rgb, rgba]
    decide
  · norm_num [hsl, hsla, hslM1, hslM2, hslaChannels, hue_to_rgb, hueWrap,
      roundFloat, toU8, rgb, rgba]
    decide
  · norm_num [hsl, hsla, hslM1, hslM2, hslaChannels, hue_to_rgb, hueWrap,
      roundFloat, toU8, rgb, rgba]
    decide
  · intro h s h0 h360 s0 s1
    unfold hsl hsla
    have hm2 : hslM2 s 0 = 0 := by
      unfold hslM2; rw [if_pos (by norm_num)]; ring
    have hm1 : hslM1 s 0 = 0 := by
      unfold hslM1; rw [hm2]; ring
    rw [hm1, hm2, hslaChannels_const 0 (h/360) 1
      (div_nonneg h0 (by norm_num))
      ((div_le_one (by norm_num)).mpr h360)]
    norm_num [roundFloat, toU8, rgb, rgba]
  · intro h h0 h360
    unfold hsl hsla
    have hm2 : hslM2 0 1 = 1 := by
      unfold hslM2; rw [if_neg (by norm_num)]; ring
    have hm1 : hslM1 0 1 = 1 := by
      unfold hslM1; rw [hm2]; ring
    rw [hm1, hm2, hslaChannels_const 1 (h/360) 1
      (div_nonneg h0 (by norm_num))
      ((div_le_one (by norm_num)).mpr h360)]
    norm_num [roundFloat, toU8, rgb, rgba]
    decide

theorem hsl_conversion_spec_witness :
    hsl 33 (1/2) 0 = some (rgb 0 0 0) ∧
    hsl 33 0 1 = some (rgb 255 255 255) :=
  ⟨hsl_conversion_spec.2.2.2.1 33 (1/2) (by norm_num) (by norm_num)
      (by norm_num) (by norm_num),
   hsl_conversion_spec.2.2.2.2 33 (by norm_num) (by norm_num)⟩

/-- C9: evaluation of the `Length` accessors as written in units.rs: `abs`
applied to an absolute `Px(5.0)` fails, and `abs` applied to the relative
`Em(2.0)` returns `2.0` (its body is a copy of `rel`'s, matching `Em`) —
the opposite of the spec's contract for `abs`, while `rel` behaves as
specified. -/
theorem length_abs_rel_eval :
    Length.abs (Length.Px 5) = none ∧
    Length.abs (Length.Em 2) = some 2 ∧
    Length.rel (Length.Em 2) = some 2 ∧
    Length.rel (Length.Px 5) = none :=
  ⟨rfl, rfl, rfl, rfl⟩

/-- C8: the display adapter maps the native inherit sentinel to `Inherit`,
each supported CSS 2.1 display keyword to `Specified` of the matching
`CSSDisplay` variant, and fails fast on `run-in` with an
unimplemented-property error (the full case analysis of all 17 native
display hint values). -/
theorem display_adapter_spec :
    convert_net_display_value .CssDisplayInherit = .ok Inherit ∧
    convert_net_display_value .CssDisplayInline =
      .ok (Specified .CSSDisplayInline) ∧
    convert_net_display_value .CssDisplayBlock =
      .ok (Specified .CSSDisplayBlock) ∧
    convert_net_display_value .CssDisplayListItem =
      .ok (Specified .CSSDisplayListItem) ∧
    convert_net_display_value .CssDisplayRunIn =
      .error "css unimplemented display: run-in" ∧
    convert_net_display_value .CssDisplayInlineBlock =
      .ok (Specified .CSSDisplayInlineBlock) ∧
    convert_net_display_value .CssDisplayTable =
      .ok (Specified .CSSDisplayTable) ∧
    convert_net_display_value .CssDisplayInlineTable =
      .ok (Specified .CSSDisplayInlineTable) ∧
    convert_net_display_value .CssDisplayTableRowGroup =
      .ok (Specified .CSSDisplayTableRowGroup) ∧
    convert_net_display_value .CssDisplayTableHeaderGroup =
      .ok (Specified .CSSDisplayTableHeaderGroup) ∧
    convert_net_display_value .CssDisplayTableFooterGroup =
      .ok (Specified .CSSDisplayTableFooterGroup) ∧
    convert_net_display_value .CssDisplayTableRow =
      .ok (Specified .CSSDisplayTableRow) ∧
    convert_net_display_value .CssDisplayTableColumnGroup =
      .ok (Specified .CSSDisplayTableColumnGroup) ∧
    convert_net_display_value .CssDisplayTableColumn =
      .ok (Specified .CSSDisplayTableColumn) ∧
    convert_net_display_value .CssDisplayTableCell =
      .ok (Specified .CSSDisplayTableCell) ∧
    convert_net_display_value .CssDisplayTableCaption =
      .ok (Specified .CSSDisplayTableCaption) ∧
    convert_net_display_value .CssDisplayNone =
      .ok (Specified .CSSDisplayNone) := by
  refine ⟨rfl, rfl, rfl, rfl, rfl, rfl, rfl, rfl, rfl, rfl, rfl, rfl, rfl,
    rfl, rfl, rfl, rfl⟩

theorem ratTrunc_intCast (k : ℤ) : ratTrunc (k : ℚ) = k := by
  unfold ratTrunc
  split_ifs <;> simp

/-- C3: with no parent resolved font-size length available (no parent
hint, or a parent hint that is not a length), the cascade resolver's
font-size callback resolves an `em` or percentage child font-size hint to
the fixed baseline default of 16 px. -/
theorem compute_font_size_baseline (parent : Option CssHint)
    (hp : ∀ u, parent ≠ some (.CssHintLength u)) (e c : ℤ) :
    compute_font_size parent (.CssHintLength (.CssUnitEm e)) =
      .CssHintLength (.CssUnitPx (float_to_css_fixed 16)) ∧
    compute_font_size parent (.CssHintLength (.CssUnitPct c)) =
      .CssHintLength (.CssUnitPx (float_to_css_fixed 16)) ∧
    css_fixed_to_float (float_to_css_fixed 16) = 16 := by
  refine ⟨?_, ?_, ?_⟩
  · rcases parent with _ | h
    · rfl
    · rcases h with u | _
      · exact absurd rfl (hp u)
      · rfl
  · rcases parent with _ | h
    · rfl
    · rcases h with u | _
      · exact absurd rfl (hp u)
      · rfl
  · norm_num [css_fixed_to_float, float_to_css_fixed, ratTrunc]

theorem compute_font_size_baseline_witness :
    compute_font_size none (.CssHintLength (.CssUnitEm 2048)) =
      .CssHintLength (.CssUnitPx (float_to_css_fixed 16)) ∧
    compute_font_size none (.CssHintLength (.CssUnitPct 51200)) =
      .CssHintLength (.CssUnitPx (float_to_css_fixed 16)) ∧
    css_fixed_to_float (float_to_css_fixed 16) = 16 :=
  compute_font_size_baseline none (by simp) 2048 51200

/-- C2: for a parent resolved font-size length and a relative child hint,
the callback multiplies the parent value by the child factor (`em` value;
percentage divided by 100), exactly whenever the product is representable
in the 1024-scaled fixed-point type; absolute child lengths (px, pt) pass
through unchanged; in particular 20px with 150% gives 30px and 20px with
2em gives 40px. -/
theorem compute_font_size_relative_spec :
    (∀ p e : ℤ, (1024:ℤ) ∣ p * e → ∃ r : ℤ,
       compute_font_size (some (.CssHintLength (.CssUnitPx p)))
           (.CssHintLength (.CssUnitEm e)) =
         .CssHintLength (.CssUnitPx r) ∧
       css_fixed_to_float r = css_fixed_to_float p * css_fixed_to_float e) ∧
    (∀ p c : ℤ, (102400:ℤ) ∣ p * c → ∃ r : ℤ,
       compute_font_size (some (.CssHintLength (.CssUnitPx p)))
           (.CssHintLength (.CssUnitPct c)) =
         .CssHintLength (.CssUnitPx r) ∧
       css_fixed_to_float r =
         css_fixed_to_float p * (css_fixed_to_float c / 100)) ∧
    (∀ (parent : Option CssHint) (u : ℤ),
       compute_font_size parent (.CssHintLength (.CssUnitPx u)) =
         .CssHintLength (.CssUnitPx u)) ∧
    (∀ (parent : Option CssHint) (u : ℤ),
       compute_font_size parent (.CssHintLength (.CssUnitPt u)) =
         .CssHintLength (.CssUnitPt u)) ∧
    (compute_font_size (some (.CssHintLength (.CssUnitPx 20480)))
        (.CssHintLength (.CssUnitPct 153600)) =
      .CssHintLength (.CssUnitPx 30720) ∧
     css_fixed_to_float 20480 = 20 ∧ css_fixed_to_float 153600 = 150 ∧
     css_fixed_to_float 30720 = 30) ∧
    (compute_font_size (some (.CssHintLength (.CssUnitPx 20480)))
        (.CssHintLength (.CssUnitEm 2048)) =
      .CssHintLength (.CssUnitPx 40960) ∧
     css_fixed_to_float 2048 = 2 ∧ css_fixed_to_float 40960 = 40) := by
  refine ⟨?_, ?_, fun parent u => rfl, fun parent u => rfl, ?_, ?_⟩
  · intro p e hd
    obtain ⟨k, hk⟩ := hd
    have hcast : (p : ℚ) * e = 1024 * k := by exact_mod_cast hk
    have hv : css_fixed_to_float p * css_fixed_to_float e * 1024 = (k : ℚ) := by
      unfold css_fixed_to_float
      field_simp
      linarith [hcast]
    refine ⟨k, ?_, ?_⟩
    · simp only [compute_font_size, CssUnit.to_css_fixed, CssUnit.modify]
      congr 2
      unfold float_to_css_fixed
      rw [hv, ratTrunc_intCast]
    · unfold css_fixed_to_float at hv ⊢
      field_simp at hv ⊢
      linarith [hv]
  · intro p c hd
    obtain ⟨k, hk⟩ := hd
    have hcast : (p : ℚ) * c = 102400 * k := by exact_mod_cast hk
    have hv : css_fixed_to_float p * (css_fixed_to_float c / 100) * 1024
        = (k : ℚ) := by
      unfold css_fixed_to_float
      field_simp
      linarith [hcast]
    refine ⟨k, ?_, ?_⟩
    · simp only [compute_font_size, CssUnit.to_css_fixed, CssUnit.modify]
      congr 2
      unfold float_to_css_fixed
      rw [hv, ratTrunc_intCast]
    · unfold css_fixed_to_float at hv ⊢
      field_simp at hv ⊢
      linarith [hv]
  · refine ⟨?_, by norm_num [css_fixed_to_float], by norm_num [css_fixed_to_float],
      by norm_num [css_fixed_to_float]⟩
    simp only [compute_font_size, CssUnit.to_css_fixed, CssUnit.modify]
    norm_num [css_fixed_to_float, float_to_css_fixed, ratTrunc]
  · refine ⟨?_, by norm_num [css_fixed_to_float], by norm_num [css_fixed_to_float]⟩
    simp only [compute_font_size, CssUnit.to_css_fixed, CssUnit.modify]
    norm_num [css_fixed_to_float, float_to_css_fixed, ratTrunc]

theorem compute_font_size_relative_spec_witness :
    (∃ r : ℤ,
       compute_font_size (some (.CssHintLength (.CssUnitPx 20480)))
           (.CssHintLength (.CssUnitEm 2048)) =
         .CssHintLength (.CssUnitPx r) ∧
       css_fixed_to_float r =
         css_fixed_to_float 20480 * css_fixed_to_float 2048) ∧
    (∃ r : ℤ,
       compute_font_size (some (.CssHintLength (.CssUnitPx 20480)))
           (.CssHintLength (.CssUnitPct 153600)) =
         .CssHintLength (.CssUnitPx r) ∧
       css_fixed_to_float r =
         css_fixed_to_float 20480 * (css_fixed_to_float 153600 / 100)) :=
  ⟨compute_font_size_relative_spec.1 20480 2048 ⟨40960, by norm_num⟩,
   compute_font_size_relative_spec.2.1 20480 153600 ⟨30720, by norm_num⟩⟩


theorem except_bind_ok {α β ε : Type} (x : α) (f : α → Except ε β) :
    (Except.ok x >>= f : Except ε β) = f x := rfl

theorem byteLen_append (a b : List Char) :
    byteLen (a ++ b) = byteLen a + byteLen b := by
  induction a with
  | nil => simp [byteLen]
  | cons c t ih => simp [byteLen, ih]; omega

theorem dropBytes_append (a b : List Char) :
    dropBytes (a ++ b) (byteLen a) = some b := by
  induction a with
  | nil =>
    show dropBytes b 0 = some b
    unfold dropBytes
    simp
  | cons c t ih =>
    show dropBytes (c :: (t ++ b)) (c.utf8Size + byteLen t) = some b
    unfold dropBytes
    rw [if_neg (by have := Char.utf8Size_pos c; omega)]
    dsimp only
    rw [if_pos (by omega),
        show c.utf8Size + byteLen t - c.utf8Size = byteLen t from by omega]
    exact ih

theorem takeBytes_append (a b : List Char) :
    takeBytes (a ++ b) (byteLen a) = some a := by
  induction a with
  | nil =>
    show takeBytes b 0 = some []
    unfold takeBytes
    simp
  | cons c t ih =>
    show takeBytes (c :: (t ++ b)) (c.utf8Size + byteLen t) = some (c :: t)
    unfold takeBytes
    rw [if_neg (by have := Char.utf8Size_pos c; omega)]
    dsimp only
    rw [if_pos (by omega),
        show c.utf8Size + byteLen t - c.utf8Size = byteLen t from by omega,
        ih]
    rfl

theorem sliceBytes_strip4 (body : List Char) :
    sliceBytes ("rgb(".toList ++ body ++ [')']) 4
      (byteLen ("rgb(".toList ++ body ++ [')']) - 1) = .ok body := by
  have hb : byteLen ("rgb(".toList ++ body ++ [')']) = byteLen body + 5 := by
    rw [byteLen_append, byteLen_append,
        show byteLen "rgb(".toList = 4 from rfl,
        show byteLen [')'] = 1 from rfl]
    omega
  unfold sliceBytes
  rw [hb, if_pos ⟨by omega, by omega⟩,
      show dropBytes ("rgb(".toList ++ body ++ [')']) 4
          = some (body ++ [')']) from by
        rw [List.append_assoc]
        exact dropBytes_append "rgb(".toList (body ++ [')'])]
  dsimp only
  rw [show byteLen body + 5 - 1 - 4 = byteLen body from by omega,
      takeBytes_append body [')']]

theorem splitOnChar_no_sep (sep : Char) (l : List Char) (h : sep ∉ l) :
    splitOnChar sep l = [l] := by
  induction l with
  | nil => rfl
  | cons c t ih =>
    have hc : ¬ (c = sep) := fun he => h (he ▸ List.mem_cons_self c t)
    have ht : sep ∉ t := fun hm => h (List.mem_cons_of_mem c hm)
    simp [splitOnChar, hc, ih ht]

theorem splitOnChar_append (sep : Char) (a b : List Char) (ha : sep ∉ a) :
    splitOnChar sep (a ++ sep :: b) = a :: splitOnChar sep b := by
  induction a with
  | nil => simp [splitOnChar]
  | cons c t ih =>
    have hc : ¬ (c = sep) := fun he => ha (he ▸ List.mem_cons_self c t)
    have ht : sep ∉ t := fun hm => ha (List.mem_cons_of_mem c hm)
    have hsplit := ih ht
    simp [splitOnChar, hc, hsplit]

theorem splitOnChar_cons_append (sep c : Char) (hc : ¬ (c = sep))
    (a b : List Char) (ha : sep ∉ a) :
    splitOnChar sep (c :: (a ++ sep :: b)) = (c :: a) :: splitOnChar sep b := by
  simp [splitOnChar, hc, splitOnChar_append sep a b ha]

theorem from_str_u8_space (t : List Char) : from_str_u8 (' ' :: t) = none := by
  unfold from_str_u8
  rw [if_neg]
  rintro ⟨-, hall⟩
  rw [List.all_cons, Bool.and_eq_true] at hall
  exact absurd hall.1 (by decide)

theorem parse_rgb_spaced (t1 t2 t3 : List Char)
    (h1 : ',' ∉ t1) (h2 : ',' ∉ t2) (h3 : ',' ∉ t3) :
    parse_rgb ("rgb(".toList ++ (t1 ++ ',' :: ' ' :: t2 ++ ',' :: ' ' :: t3)
        ++ [')']) = .ok none := by
  unfold parse_rgb
  rw [sliceBytes_strip4, except_bind_ok]
  have h2' : ',' ∉ ' ' :: t2 := by
    intro hm
    rcases List.mem_cons.mp hm with he | hm
    · exact absurd he (by decide)
    · exact h2 hm
  rw [show (t1 ++ ',' :: ' ' :: t2 ++ ',' :: ' ' :: t3)
        = t1 ++ ',' :: (' ' :: t2 ++ ',' :: ' ' :: t3) from by simp,
      splitOnChar_append ',' t1 _ h1,
      show (' ' :: t2 ++ ',' :: ' ' :: t3)
        = ' ' :: (t2 ++ ',' :: ' ' :: t3) from by simp,
      splitOnChar_cons_append ',' ' ' (by decide) t2 (' ' :: t3) h2,
      splitOnChar_no_sep ',' (' ' :: t3) (by
        intro hm
        rcases List.mem_cons.mp hm with he | hm
        · exact absurd he (by decide)
        · exact h3 hm)]
  dsimp only
  rw [from_str_u8_space t2]
  rcases from_str_u8 t1 with _ | r
  · rfl
  · rfl
theorem hsla_red_eval (a : ℚ) : hsla 0 1 (1/2) a = some (rgba 255 0 0 a) := by
  norm_num [hsla, hslM1, hslM2, hslaChannels, hue_to_rgb, hueWrap,
    roundFloat, toU8, rgba]
  decide

theorem parse_hsl_nospace_eval :
    parse_color "hsl(0,1,.5)" = .ok (some (rgb 255 0 0)) := by
  have st : parse_color "hsl(0,1,.5)" =
      (match hsl
          ((digitsVal ['0'] : ℚ) +
            (digitsVal ([] : List Char) : ℚ) / (10:ℚ) ^ ([] : List Char).length)
          ((digitsVal ['1'] : ℚ) +
            (digitsVal ([] : List Char) : ℚ) / (10:ℚ) ^ ([] : List Char).length)
          ((digitsVal ([] : List Char) : ℚ) +
            (digitsVal ['5'] : ℚ) / (10:ℚ) ^ (['5'] : List Char).length) with
       | some col => Except.ok (some col)
       | none => Except.error RtFail.invalidHue) := rfl
  have e0 : ((digitsVal ['0'] : ℚ) +
      (digitsVal ([] : List Char) : ℚ) / (10:ℚ) ^ ([] : List Char).length)
      = 0 := by
    rw [show digitsVal ['0'] = 0 from rfl,
        show digitsVal ([] : List Char) = 0 from rfl]
    norm_num
  have e1 : ((digitsVal ['1'] : ℚ) +
      (digitsVal ([] : List Char) : ℚ) / (10:ℚ) ^ ([] : List Char).length)
      = 1 := by
    rw [show digitsVal ['1'] = 1 from rfl,
        show digitsVal ([] : List Char) = 0 from rfl]
    norm_num
  have e5 : ((digitsVal ([] : List Char) : ℚ) +
      (digitsVal ['5'] : ℚ) / (10:ℚ) ^ (['5'] : List Char).length)
      = 1/2 := by
    rw [show digitsVal ['5'] = 5 from rfl,
        show digitsVal ([] : List Char) = 0 from rfl]
    norm_num
  rw [st, e0, e1, e5, show hsl 0 1 (1/2) = some (rgb 255 0 0) from hsla_red_eval 1]

theorem parse_hsla_nospace_eval :
    parse_color "hsla(0,1,.5,1)" = .ok (some (rgba 255 0 0 1)) := by
  have st : parse_color "hsla(0,1,.5,1)" =
      (match hsla
          ((digitsVal ['0'] : ℚ) +
            (digitsVal ([] : List Char) : ℚ) / (10:ℚ) ^ ([] : List Char).length)
          ((digitsVal ['1'] : ℚ) +
            (digitsVal ([] : List Char) : ℚ) / (10:ℚ) ^ ([] : List Char).length)
          ((digitsVal ([] : List Char) : ℚ) +
            (digitsVal ['5'] : ℚ) / (10:ℚ) ^ (['5'] : List Char).length)
          ((digitsVal ['1'] : ℚ) +
            (digitsVal ([] : List Char) : ℚ) / (10:ℚ) ^ ([] : List Char).length) with
       | some col => Except.ok (some col)
       | none => Except.error RtFail.invalidHue) := rfl
  have e0 : ((digitsVal ['0'] : ℚ) +
      (digitsVal ([] : List Char) : ℚ) / (10:ℚ) ^ ([] : List Char).length)
      = 0 := by
    rw [show digitsVal ['0'] = 0 from rfl,
        show digitsVal ([] : List Char) = 0 from rfl]
    norm_num
  have e1 : ((digitsVal ['1'] : ℚ) +
      (digitsVal ([] : List Char) : ℚ) / (10:ℚ) ^ ([] : List Char).length)
      = 1 := by
    rw [show digitsVal ['1'] = 1 from rfl,
        show digitsVal ([] : List Char) = 0 from rfl]
    norm_num
  have e5 : ((digitsVal ([] : List Char) : ℚ) +
      (digitsVal ['5'] : ℚ) / (10:ℚ) ^ (['5'] : List Char).length)
      = 1/2 := by
    rw [show digitsVal ['5'] = 5 from rfl,
        show digitsVal ([] : List Char) = 0 from rfl]
    norm_num
  rw [st, e0, e1, e5, hsla_red_eval 1]
/-- C6 (amended): whitespace around the comma-separated tokens is NOT
accepted — every `rgb(t1, t2, t3)` form whose tokens carry the
space after the comma parses to `None` (and likewise at the concrete
spaced rgba/hsl/hsla inputs), while the space-free forms succeed. -/
theorem functional_whitespace_spec :
    (∀ (s : String) (t1 t2 t3 : List Char), ',' ∉ t1 → ',' ∉ t2 → ',' ∉ t3 →
       s.toList = "rgb(".toList ++
         (t1 ++ ',' :: ' ' :: t2 ++ ',' :: ' ' :: t3) ++ [')'] →
       parse_color s = .ok none) ∧
    parse_color "rgba(15, 250, 3, .5)" = .ok none ∧
    parse_color "hsl(0, 1, .5)" = .ok none ∧
    parse_color "hsla(0, 1, .5, 1)" = .ok none ∧
    parse_color "rgb(1,2,3)" = .ok (some (rgb 1 2 3)) ∧
    parse_color "rgba(15,250,3,.5)" ≠ .ok none ∧
    parse_color "hsl(0,1,.5)" = .ok (some (rgb 255 0 0)) ∧
    parse_color "hsla(0,1,.5,1)" = .ok (some (rgba 255 0 0 1)) := by
  refine ⟨?_, by decide, by decide, by decide, by decide, by decide,
    parse_hsl_nospace_eval, parse_hsla_nospace_eval⟩
  intro s t1 t2 t3 h1 h2 h3 hs
  unfold parse_color
  rw [hs]
  have hpre : ("rgb(".toList.isPrefixOf
      ("rgb(".toList ++ (t1 ++ ',' :: ' ' :: t2 ++ ',' :: ' ' :: t3)
        ++ [')'])) = true := by
    apply List.isPrefixOf_iff_prefix.mpr
    exact (List.prefix_append _ _).trans (List.prefix_append _ _)
  rw [if_pos hpre]
  exact parse_rgb_spaced t1 t2 t3 h1 h2 h3

theorem functional_whitespace_spec_witness :
    parse_color "rgb(1, 2, 3)" = .ok none :=
  functional_whitespace_spec.1 "rgb(1, 2, 3)" ['1'] ['2'] ['3']
    (by decide) (by decide) (by decide) (by decide)

/-- C6, the claim as stated is false: `rgb(1, 2, 3)` with spaces after the
commas does not parse to the same color as `rgb(1,2,3)` — it parses to
`None` while the space-free form succeeds. -/
theorem functional_whitespace_counterexample :
    parse_color "rgb(1, 2, 3)" ≠ parse_color "rgb(1,2,3)" := by decide

/-- C7: leading zeros are tolerated (`rgb(1,2,03)` is `rgb(1,2,3)`), both
fractional forms `.5` and `0.5` give the same parse, and an arity mismatch
(`hsl` with four arguments) or a typo'd prefix (`rbga`) yields `None`
rather than a failure. -/
theorem numeric_form_tolerance_spec :
    parse_color "rgb(1,2,03)" = .ok (some (rgb 1 2 3)) ∧
    parse_color "rgba(15,250,3,.5)" = parse_color "rgba(15,250,3,0.5)" ∧
    parse_color "rgba(15,250,3,.5)" ≠ .ok none ∧
    parse_color "hsl(1,2,3,.4)" = .ok none ∧
    parse_color "rbga(1,2,3)" = .ok none :=
  ⟨by decide, rfl, by decide, by decide, by decide⟩

end RustCss
